import Mathlib

/-!
A shallow embedding of `InventoryOCP.py`, an OpenShift cluster-inventory
script.  External commands (`kubectl`/`oc` invocations through
`run_command`) are modelled as pre-supplied query results: `none` models a
failed command (`run_command` returning `None`), `some x` a successful one.
Uncaught Python exceptions (IndexError / KeyError propagating out of a
function) are modelled by `Option`-valued functions returning `none`.
Attribute values that the script treats opaquely (labels, resource blocks,
access-mode lists, quota limits) are modelled as strings carrying their
rendered form.  Python dicts are modelled as association lists with
insertion-order / overwrite-in-place semantics.
-/

namespace InventoryOCP

/-! ### Python string primitives used by the script -/

/-- Python `str.startswith`, via `List.isPrefixOf` on the characters. -/
def pyStartswith (s p : String) : Bool :=
  p.data.isPrefixOf s.data

/-- Infix test on character lists (Python `a in b` for strings). -/
def listIsInfix (sub : List Char) : List Char → Bool
  | [] => sub.isEmpty
  | c :: rest => sub.isPrefixOf (c :: rest) || listIsInfix sub rest

/-- Python `sub in s` for strings. -/
def pyIn (sub s : String) : Bool :=
  listIsInfix sub.data s.data

/-- Helper for `pySplitlines`: split at newline characters; a final empty
segment (trailing newline, or empty input) produces no line, matching
Python `str.splitlines`. -/
def splitlinesAux : List Char → List Char → List (List Char)
  | [], acc => if acc.isEmpty then [] else [acc.reverse]
  | c :: rest, acc =>
      if c = '\n' then acc.reverse :: splitlinesAux rest []
      else splitlinesAux rest (c :: acc)

/-- Python `str.splitlines` (newline-only model; the script's input comes
from `stdout.strip()`, so carriage returns are not modelled). -/
def pySplitlines (s : String) : List String :=
  (splitlinesAux s.data []).map List.asString

/-- Helper for `pySplit`: split on runs of blanks, dropping empty tokens,
matching Python `str.split()` with no argument. -/
def splitwsAux : List Char → List Char → List (List Char)
  | [], acc => if acc.isEmpty then [] else [acc.reverse]
  | c :: rest, acc =>
      if c = ' ' ∨ c = '\t' then
        if acc.isEmpty then splitwsAux rest []
        else acc.reverse :: splitwsAux rest []
      else splitwsAux rest (c :: acc)

/-- Python `str.split()` (whitespace tokenisation, empty tokens dropped). -/
def pySplit (s : String) : List String :=
  (splitwsAux s.data []).map List.asString

/-- Python `','.join(xs)`. -/
def joinComma (xs : List String) : String :=
  String.intercalate "," xs

/-- Python `set(xs)` for a list of strings, as fed to `','.join`: duplicates
collapsed.  CPython's set iteration order is unspecified; we model it as
`List.dedup` (one definite order with the same underlying set). -/
def pyStrSet (xs : List String) : List String :=
  xs.dedup

/-! ### Python dict model: association lists, insertion order, overwrite -/

/-- Python `d[k] = v`: overwrite in place if the key is present (keys built
this way are unique), else append at the end. -/
def dictSet {α : Type} : List (String × α) → String → α → List (String × α)
  | [], k, v => [(k, v)]
  | kv :: rest, k, v =>
      if kv.1 = k then (k, v) :: rest else kv :: dictSet rest k v

/-- Python `d.get(k)` / `k in d` combined: first entry with the key. -/
def dictGet? {α : Type} : List (String × α) → String → Option α
  | [], _ => none
  | kv :: rest, k => if kv.1 = k then some kv.2 else dictGet? rest k

/-- One inventory row: a Python dict from column name to rendered value. -/
def Row : Type := List (String × String)

/-- Python `row.update(kvs)` over a dict literal `kvs`. -/
def rowUpdate (r : Row) (kvs : List (String × String)) : Row :=
  kvs.foldl (fun d kv => dictSet d kv.1 kv.2) r

/-- Value the key ends up with after `rowUpdate`, looking at the update
list alone: the last entry for the key, if any. -/
def lastVal : List (String × String) → String → Option String
  | [], _ => none
  | kv :: kvs, k =>
      match lastVal kvs k with
      | some v => some v
      | none => if kv.1 = k then some kv.2 else none

/-! ### Raw resource records (the JSON shapes the script reads) -/

/-- One entry of a pod's `spec.containers`; `image` is `none` when the
`image` key is missing (the script indexes it unconditionally). -/
structure RawContainer where
  resources : Option String
  readinessProbe : Option String
  livenessProbe : Option String
  image : Option String
  deriving DecidableEq, Repr

/-- A raw pod record: `metadata.name`, optional `spec.nodeName`, and the
`spec.containers` array (possibly empty — the script indexes `[0]`). -/
structure RawPod where
  name : String
  nodeName : Option String
  containers : List RawContainer
  deriving DecidableEq, Repr

/-- A raw Deployment / DeploymentConfig / StatefulSet record: the three
getters read the same fields (`metadata.name`, `spec.replicas`,
optional `metadata.labels`). -/
structure RawWorkload where
  name : String
  replicas : Int
  labels : Option String
  deriving DecidableEq, Repr

structure RawService where
  name : String
  stype : String
  ports : List Int
  deriving DecidableEq, Repr

structure RawRoute where
  name : String
  host : String
  deriving DecidableEq, Repr

structure RawHPA where
  name : String
  minReplicas : Option Int
  maxReplicas : Int
  currentCPU : Option String
  deriving DecidableEq, Repr

structure RawQuota where
  name : String
  hard : String
  deriving DecidableEq, Repr

/-- A raw PersistentVolume: `claimRef` is optional, and inside it the
`namespace` key is optional again. -/
structure RawPV where
  name : String
  claimRef : Option (Option String)
  capacity : String
  accessModes : String
  reclaimPolicy : String
  deriving DecidableEq, Repr

structure RawPVCSpec where
  volumeName : Option String
  deriving DecidableEq, Repr

structure RawPVCStatus where
  accessModes : Option String
  capacity : Option (Option String)
  deriving DecidableEq, Repr

/-- A raw PersistentVolumeClaim; `spec` / `status` are `none` when the key
is absent, which the script's `try` block turns into an `N/A` entry. -/
structure RawPVC where
  name : String
  spec : Option RawPVCSpec
  status : Option RawPVCStatus
  deriving DecidableEq, Repr

structure RawSecret where
  name : String
  stype : String
  deriving DecidableEq, Repr

structure RawConfigmap where
  name : String
  deriving DecidableEq, Repr

/-! ### Normalized records (the dicts the getters build) -/

structure PodInfo where
  node_name : String
  resources : String
  readiness_probe : String
  liveness_probe : String
  image : String
  pod_name : String
  deriving DecidableEq, Repr

structure Workload where
  deployment_name : String
  replicas : Int
  labels : String
  /-- Value `none` for plain Deployments (the getter sets no `type` key);
  `some "DeploymentConfig"` / `some "StatefulSet"` for the other two. -/
  wtype : Option String
  deriving DecidableEq, Repr

structure ServiceInfo where
  name : String
  stype : String
  ports : String
  deriving DecidableEq, Repr

structure RouteInfo where
  name : String
  host : String
  deriving DecidableEq, Repr

structure HPAInfo where
  name : String
  min_replicas : Int
  max_replicas : Int
  current_cpu_utilization : String
  deriving DecidableEq, Repr

structure QuotaInfo where
  name : String
  limits : String
  deriving DecidableEq, Repr

structure PVInfo where
  name : String
  /-- the source dict's `namespace` key (`namespace` is reserved in Lean) -/
  nspace : Option String
  capacity : String
  access_modes : String
  reclaim_policy : String
  deriving DecidableEq, Repr

structure PVCInfo where
  name : String
  volume_name : String
  access_modes : String
  capacity : String
  deriving DecidableEq, Repr

structure SecretInfo where
  name : String
  stype : String
  deriving DecidableEq, Repr

structure ConfigmapInfo where
  name : String
  deriving DecidableEq, Repr

/-! ### The per-kind getters (`get_*` functions of the script) -/

/-- Exclusion test of `get_non_openshift_namespaces`. -/
def excludedName (n : String) : Bool :=
  pyStartswith n "openshift-" || pyStartswith n "kube-" ||
  pyStartswith n "default" || pyStartswith n "hostpath-provisioner"

/-- Model of `get_non_openshift_namespaces`: a failed listing yields `[]`. -/
def get_non_openshift_namespaces (q : Option (List String)) : List String :=
  match q with
  | none => []
  | some ns => ns.filter (fun n => !(excludedName n))

/-- Body of `get_pod_info`'s loop for one pod.  `pod['spec']['containers'][0]`
raises IndexError on an empty list, and `['image']` raises KeyError when
absent: `none` models the exception. -/
def normalizePod (pod : RawPod) : Option PodInfo :=
  match pod.containers with
  | [] => none
  | c :: _ =>
      match c.image with
      | none => none
      | some img =>
          some { node_name := pod.nodeName.getD "N/A"
                 resources := c.resources.getD "{}"
                 readiness_probe := c.readinessProbe.getD "{}"
                 liveness_probe := c.livenessProbe.getD "{}"
                 image := img
                 pod_name := pod.name }

/-- The accumulation loop of `get_pod_info`: builds the `pod_info` list in
order; an exception on any record abandons the whole loop. -/
def normalizePods : List RawPod → Option (List PodInfo)
  | [] => some []
  | p :: ps => (normalizePod p).bind fun i => (normalizePods ps).map (i :: ·)

/-- Model of `get_pod_info`: a failed query yields `[]`; an exception on any record
escapes the whole function (no handler), modelled as `none`. -/
def get_pod_info (q : Option (List RawPod)) : Option (List PodInfo) :=
  match q with
  | none => some []
  | some pods => normalizePods pods

/-- Model of `get_node_selector`: outer `none` = failed query (returns `'N/A'`),
inner option = the `openshift.io/node-selector` annotation. -/
def get_node_selector (q : Option (Option String)) : String :=
  match q with
  | none => "N/A"
  | some ann => ann.getD "N/A"

def get_resource_quotas (q : Option (List RawQuota)) : List QuotaInfo :=
  match q with
  | none => []
  | some quotas => quotas.map (fun qu => { name := qu.name, limits := qu.hard })

def get_persistent_volumes (q : Option (List RawPV)) : List PVInfo :=
  match q with
  | none => []
  | some pvs => pvs.map (fun pv =>
      { name := pv.name
        nspace := pv.claimRef.bind id
        capacity := pv.capacity
        access_modes := pv.accessModes
        reclaim_policy := pv.reclaimPolicy })

/-- Loop body of `get_persistent_volume_claims`: a missing `spec` or
`status` key raises KeyError, caught by the script's handler, which
appends an all-`N/A` entry instead. -/
def normalizePVC (pvc : RawPVC) : PVCInfo :=
  match pvc.spec, pvc.status with
  | some sp, some st =>
      { name := pvc.name
        volume_name := sp.volumeName.getD "N/A"
        access_modes := st.accessModes.getD "N/A"
        capacity := (st.capacity.getD none).getD "N/A" }
  | _, _ =>
      { name := pvc.name, volume_name := "N/A"
        access_modes := "N/A", capacity := "N/A" }

def get_persistent_volume_claims (q : Option (List RawPVC)) : List PVCInfo :=
  match q with
  | none => []
  | some pvcs => pvcs.map normalizePVC

/-- Secret-name exclusion of `get_secrets`. -/
def excludedSecret (n : String) : Bool :=
  pyStartswith n "builder" || pyStartswith n "default" || pyStartswith n "deployer"

def get_secrets (q : Option (List RawSecret)) : List SecretInfo :=
  match q with
  | none => []
  | some secrets =>
      (secrets.filter (fun s => !(excludedSecret s.name))).map
        (fun s => { name := s.name, stype := s.stype })

/-- Configmap-name exclusion of `get_configmaps`. -/
def excludedConfigmap (n : String) : Bool :=
  pyStartswith n "openshift" || pyStartswith n "kube-"

def get_configmaps (q : Option (List RawConfigmap)) : List ConfigmapInfo :=
  match q with
  | none => []
  | some cms =>
      (cms.filter (fun cm => !(excludedConfigmap cm.name))).map
        (fun cm => { name := cm.name })

/-- The pod-metrics mapping: pod name to (cpu, memory). -/
def Metrics : Type := List (String × (String × String))

/-- Loop of `get_pod_metrics`: build the dict line by line; a line with
fewer than three tokens raises IndexError (`none`), abandoning the dict
built so far. -/
def buildMetrics : List String → Metrics → Option Metrics
  | [], acc => some acc
  | line :: rest, acc =>
      match pySplit line with
      | n :: c :: m :: _ => buildMetrics rest (dictSet acc n (c, m))
      | _ => none

/-- Model of `get_pod_metrics`: failed query gives `{}`; the surrounding
`try/except` turns any parse exception into `{}` as well. -/
def get_pod_metrics (q : Option String) : Metrics :=
  match q with
  | none => []
  | some out =>
      match buildMetrics (pySplitlines out) [] with
      | some m => m
      | none => []

def get_deployments_info (q : Option (List RawWorkload)) : List Workload :=
  match q with
  | none => []
  | some ds => ds.map (fun d =>
      { deployment_name := d.name, replicas := d.replicas
        labels := d.labels.getD "{}", wtype := none })

def get_deploymentconfigs_info (q : Option (List RawWorkload)) : List Workload :=
  match q with
  | none => []
  | some ds => ds.map (fun d =>
      { deployment_name := d.name, replicas := d.replicas
        labels := d.labels.getD "{}", wtype := some "DeploymentConfig" })

def get_statefulsets_info (q : Option (List RawWorkload)) : List Workload :=
  match q with
  | none => []
  | some ds => ds.map (fun d =>
      { deployment_name := d.name, replicas := d.replicas
        labels := d.labels.getD "{}", wtype := some "StatefulSet" })

def get_services_info (q : Option (List RawService)) : List ServiceInfo :=
  match q with
  | none => []
  | some ss => ss.map (fun s =>
      { name := s.name, stype := s.stype
        ports := joinComma (s.ports.map toString) })

def get_routes_info (q : Option (List RawRoute)) : List RouteInfo :=
  match q with
  | none => []
  | some rs => rs.map (fun r => { name := r.name, host := r.host })

def get_hpa_info (q : Option (List RawHPA)) : List HPAInfo :=
  match q with
  | none => []
  | some hs => hs.map (fun h =>
      { name := h.name
        min_replicas := h.minReplicas.getD 1
        max_replicas := h.maxReplicas
        current_cpu_utilization := h.currentCPU.getD "N/A" })

/-! ### The cluster: all query results the run would read -/

/-- Everything `run_command` could be asked during one run.  Per-namespace
queries are functions of the namespace name; `none` is a failed command. -/
structure Cluster where
  namespacesQ : Option (List String)
  deploymentsQ : String → Option (List RawWorkload)
  dcsQ : String → Option (List RawWorkload)
  statefulsetsQ : String → Option (List RawWorkload)
  podsQ : String → Option (List RawPod)
  /-- raw stdout of `kubectl top pod` (already stripped) -/
  metricsQ : String → Option String
  servicesQ : String → Option (List RawService)
  routesQ : String → Option (List RawRoute)
  hpasQ : String → Option (List RawHPA)
  quotasQ : String → Option (List RawQuota)
  pvcsQ : String → Option (List RawPVC)
  secretsQ : String → Option (List RawSecret)
  configmapsQ : String → Option (List RawConfigmap)
  /-- per-namespace `kubectl get namespace` result: the node-selector
  annotation, itself optional -/
  nsinfoQ : String → Option (Option String)
  /-- cluster-scoped `kubectl get pv`, queried once per run -/
  pvsQ : Option (List RawPV)

/-! ### `generate_inventory`: row construction -/

/-- The script's `relevant_pods`: pods whose name contains the workload's name. -/
def relevantPods (name : String) (pods : List PodInfo) : List PodInfo :=
  pods.filter (fun p => pyIn name p.pod_name)

/-- Python `set([pod['node_name'] for pod in relevant_pods])`. -/
def nodeNamesOf (rel : List PodInfo) : List String :=
  pyStrSet (rel.map (·.node_name))

/-- Python `set([pod['image'] for pod in relevant_pods])`. -/
def podImagesOf (rel : List PodInfo) : List String :=
  pyStrSet (rel.map (·.image))

/-- Python `pod_metrics.get(name, \x7b\x7d).get('cpu', 'N/A')` of the script. -/
def cpuOf (m : Metrics) (name : String) : String :=
  match dictGet? m name with
  | some cm => cm.1
  | none => "N/A"

/-- Python `pod_metrics.get(name, \x7b\x7d).get('memory', 'N/A')` of the script. -/
def memOf (m : Metrics) (name : String) : String :=
  match dictGet? m name with
  | some cm => cm.2
  | none => "N/A"

/-- One cpu entry per relevant pod, in pod iteration order. -/
def cpuUsages (m : Metrics) (rel : List PodInfo) : List String :=
  rel.map (fun p => cpuOf m p.pod_name)

/-- One memory entry per relevant pod, in pod iteration order. -/
def memUsages (m : Metrics) (rel : List PodInfo) : List String :=
  rel.map (fun p => memOf m p.pod_name)

/-- The dict appended to `inventory` for one workload. -/
def workloadRow (ns : String) (pods : List PodInfo) (m : Metrics)
    (svcs : List ServiceInfo) (rts : List RouteInfo) (hpas : List HPAInfo)
    (w : Workload) : Row :=
  let rel := relevantPods w.deployment_name pods
  [("namespace", ns),
   ("deployment_name", w.deployment_name),
   ("deployment_type", w.wtype.getD "Deployment"),
   ("deployment_replicas", toString w.replicas),
   ("deployment_labels", w.labels),
   ("node_names", joinComma (nodeNamesOf rel)),
   ("pod_images", joinComma (podImagesOf rel)),
   ("pod_resources", joinComma (rel.map (·.resources))),
   ("pod_cpu_usages", joinComma (cpuUsages m rel)),
   ("pod_memory_usages", joinComma (memUsages m rel)),
   ("services", joinComma (svcs.map (·.name))),
   ("service_ports", joinComma (svcs.map (·.ports))),
   ("routes", joinComma (rts.map (·.name))),
   ("route_hosts", joinComma (rts.map (·.host))),
   ("hpas", joinComma (hpas.map (·.name)))]

/-! ### Sibling attachment (`inventory[-1].update(...)`) -/

/-- Python `inventory[-1].update(kvs)`: mutate the last row in place.  On an
empty inventory, Python's `inventory[-1]` raises IndexError: `none`. -/
def updateLast : List Row → List (String × String) → Option (List Row)
  | [], _ => none
  | [r], kvs => some [rowUpdate r kvs]
  | r :: s :: rest, kvs => (updateLast (s :: rest) kvs).map (r :: ·)

def quotaKVs (q : QuotaInfo) : List (String × String) :=
  [("quota_name", q.name), ("quota_limits", q.limits)]

def pvKVs (pv : PVInfo) : List (String × String) :=
  [("pv_name", pv.name), ("pv_capacity", pv.capacity),
   ("pv_access_modes", pv.access_modes), ("pv_reclaim_policy", pv.reclaim_policy)]

def pvcKVs (pvc : PVCInfo) : List (String × String) :=
  [("pvc_name", pvc.name), ("pvc_volume_name", pvc.volume_name),
   ("pvc_access_modes", pvc.access_modes), ("pvc_capacity", pvc.capacity)]

def secretKVs (s : SecretInfo) : List (String × String) :=
  [("secret_name", s.name), ("secret_type", s.stype)]

def configmapKVs (cm : ConfigmapInfo) : List (String × String) :=
  [("configmap_name", cm.name)]

def attachQuotas (inv : List Row) (qs : List QuotaInfo) : Option (List Row) :=
  qs.foldlM (fun i q => updateLast i (quotaKVs q)) inv

/-- The PV loop: only volumes whose claim namespace equals the current one
touch the inventory. -/
def attachPVs (inv : List Row) (ns : String) (pvs : List PVInfo) : Option (List Row) :=
  pvs.foldlM
    (fun i pv => if pv.nspace = some ns then updateLast i (pvKVs pv) else some i) inv

def attachPVCs (inv : List Row) (pvcs : List PVCInfo) : Option (List Row) :=
  pvcs.foldlM (fun i pvc => updateLast i (pvcKVs pvc)) inv

def attachSecrets (inv : List Row) (ss : List SecretInfo) : Option (List Row) :=
  ss.foldlM (fun i s => updateLast i (secretKVs s)) inv

def attachConfigmaps (inv : List Row) (cms : List ConfigmapInfo) : Option (List Row) :=
  cms.foldlM (fun i cm => updateLast i (configmapKVs cm)) inv

def attachNodeSelector (inv : List Row) (sel : String) : Option (List Row) :=
  if sel ≠ "N/A" then updateLast inv [("node_selector", sel)] else some inv

/-! ### The main loop -/

/-- The sum `deployments_info + dcs_info + statefulsets_info` for one namespace. -/
def allWorkloads (c : Cluster) (ns : String) : List Workload :=
  get_deployments_info (c.deploymentsQ ns) ++
  get_deploymentconfigs_info (c.dcsQ ns) ++
  get_statefulsets_info (c.statefulsetsQ ns)

/-- One iteration of the namespace loop of `generate_inventory`, threading
the accumulated inventory.  `none` models an uncaught exception. -/
def processNamespace (c : Cluster) (pv_info : List PVInfo) (inv : List Row)
    (ns : String) : Option (List Row) :=
  (get_pod_info (c.podsQ ns)).bind fun pod_info =>
  let m := get_pod_metrics (c.metricsQ ns)
  let svcs := get_services_info (c.servicesQ ns)
  let rts := get_routes_info (c.routesQ ns)
  let hpas := get_hpa_info (c.hpasQ ns)
  let inv1 := inv ++ (allWorkloads c ns).map (workloadRow ns pod_info m svcs rts hpas)
  (attachQuotas inv1 (get_resource_quotas (c.quotasQ ns))).bind fun inv2 =>
  (attachPVs inv2 ns pv_info).bind fun inv3 =>
  (attachPVCs inv3 (get_persistent_volume_claims (c.pvcsQ ns))).bind fun inv4 =>
  (attachSecrets inv4 (get_secrets (c.secretsQ ns))).bind fun inv5 =>
  (attachConfigmaps inv5 (get_configmaps (c.configmapsQ ns))).bind fun inv6 =>
  attachNodeSelector inv6 (get_node_selector (c.nsinfoQ ns))

/-- Model of `generate_inventory` up to the point where the files are written: the
final inventory list, or `none` if the run died on an exception. -/
def generate_inventory (c : Cluster) : Option (List Row) :=
  let pv_info := get_persistent_volumes c.pvsQ
  (get_non_openshift_namespaces c.namespacesQ).foldlM (processNamespace c pv_info) []

/-! ### The report sink -/

/-- The hardcoded CSV `fieldnames` list. -/
def fieldnames : List String :=
  ["namespace", "deployment_name", "deployment_type", "deployment_replicas",
   "deployment_labels", "node_names", "pod_images", "pod_resources",
   "pod_cpu_usages", "pod_memory_usages", "services", "service_ports",
   "routes", "route_hosts", "hpas", "quota_name", "quota_limits",
   "pv_name", "pv_capacity", "pv_access_modes", "pv_reclaim_policy",
   "pvc_name", "pvc_volume_name", "pvc_access_modes", "pvc_capacity",
   "secret_name", "secret_type", "configmap_name", "node_selector"]

/-- One CSV cell: `csv.DictWriter`'s default `restval` pads a missing key
with the empty string, not with `'N/A'`. -/
def csvCell (r : Row) (f : String) : String :=
  (dictGet? r f).getD ""

/-- Python `writer.writerow(entry)`: `DictWriter` raises on a key outside
`fieldnames` (default `extrasaction='raise'`), else emits one cell per
field in `fieldnames` order. -/
def writerow (r : Row) : Option (List String) :=
  if r.all (fun kv => fieldnames.contains kv.1) then
    some (fieldnames.map (csvCell r))
  else none

/-- The CSV body: one projected line per inventory row, in order; a row
rejected by `DictWriter` aborts the write. -/
def writeCSV : List Row → Option (List (List String))
  | [] => some []
  | r :: inv => (writerow r).bind fun cells => (writeCSV inv).map (cells :: ·)

/-- The JSON file is `json.dump(inventory)`: the rows exactly as built,
each with only the keys that were actually set. -/
def writeJSON (inv : List Row) : List Row :=
  inv

/-! ### Fault injection for the transport-error claims -/

/-- The (namespace-scoped or cluster-scoped) query kinds of one run. -/
inductive QueryKind where
  | deployments | dcs | statefulsets | pods | metrics | services | routes
  | hpas | quotas | pvcs | secrets | configmaps | nsinfo | pvs
  deriving DecidableEq, Repr

/-- Make the `(ns0, k)` query fail (`run_command` returns `None`). -/
def failQuery (c : Cluster) (k : QueryKind) (ns0 : String) : Cluster :=
  match k with
  | .deployments => { c with deploymentsQ := fun ns => if ns = ns0 then none else c.deploymentsQ ns }
  | .dcs => { c with dcsQ := fun ns => if ns = ns0 then none else c.dcsQ ns }
  | .statefulsets => { c with statefulsetsQ := fun ns => if ns = ns0 then none else c.statefulsetsQ ns }
  | .pods => { c with podsQ := fun ns => if ns = ns0 then none else c.podsQ ns }
  | .metrics => { c with metricsQ := fun ns => if ns = ns0 then none else c.metricsQ ns }
  | .services => { c with servicesQ := fun ns => if ns = ns0 then none else c.servicesQ ns }
  | .routes => { c with routesQ := fun ns => if ns = ns0 then none else c.routesQ ns }
  | .hpas => { c with hpasQ := fun ns => if ns = ns0 then none else c.hpasQ ns }
  | .quotas => { c with quotasQ := fun ns => if ns = ns0 then none else c.quotasQ ns }
  | .pvcs => { c with pvcsQ := fun ns => if ns = ns0 then none else c.pvcsQ ns }
  | .secrets => { c with secretsQ := fun ns => if ns = ns0 then none else c.secretsQ ns }
  | .configmaps => { c with configmapsQ := fun ns => if ns = ns0 then none else c.configmapsQ ns }
  | .nsinfo => { c with nsinfoQ := fun ns => if ns = ns0 then none else c.nsinfoQ ns }
  | .pvs => { c with pvsQ := none }

/-- Make the `(ns0, k)` query succeed with an empty result set. -/
def emptyQuery (c : Cluster) (k : QueryKind) (ns0 : String) : Cluster :=
  match k with
  | .deployments => { c with deploymentsQ := fun ns => if ns = ns0 then some [] else c.deploymentsQ ns }
  | .dcs => { c with dcsQ := fun ns => if ns = ns0 then some [] else c.dcsQ ns }
  | .statefulsets => { c with statefulsetsQ := fun ns => if ns = ns0 then some [] else c.statefulsetsQ ns }
  | .pods => { c with podsQ := fun ns => if ns = ns0 then some [] else c.podsQ ns }
  | .metrics => { c with metricsQ := fun ns => if ns = ns0 then some "" else c.metricsQ ns }
  | .services => { c with servicesQ := fun ns => if ns = ns0 then some [] else c.servicesQ ns }
  | .routes => { c with routesQ := fun ns => if ns = ns0 then some [] else c.routesQ ns }
  | .hpas => { c with hpasQ := fun ns => if ns = ns0 then some [] else c.hpasQ ns }
  | .quotas => { c with quotasQ := fun ns => if ns = ns0 then some [] else c.quotasQ ns }
  | .pvcs => { c with pvcsQ := fun ns => if ns = ns0 then some [] else c.pvcsQ ns }
  | .secrets => { c with secretsQ := fun ns => if ns = ns0 then some [] else c.secretsQ ns }
  | .configmaps => { c with configmapsQ := fun ns => if ns = ns0 then some [] else c.configmapsQ ns }
  | .nsinfo => { c with nsinfoQ := fun ns => if ns = ns0 then some none else c.nsinfoQ ns }
  | .pvs => { c with pvsQ := some [] }

/-! ### Views of rows used by the stated properties -/

/-- The identifying columns of a row: namespace, workload name, workload
kind, in the order the claims speak about them is immaterial; we keep the
column order of the row itself. -/
def rowSig (r : Row) : Option String × Option String × Option String :=
  (dictGet? r "namespace", dictGet? r "deployment_name", dictGet? r "deployment_type")

/-- An update list that never touches the identifying columns. -/
def SigNeutral (kvs : List (String × String)) : Prop :=
  lastVal kvs "namespace" = none ∧ lastVal kvs "deployment_name" = none ∧
  lastVal kvs "deployment_type" = none

/-- Signature stream contributed by one namespace: one entry per workload,
in the order Deployment list, DeploymentConfig list, StatefulSet list. -/
def nsSigs (c : Cluster) (ns : String) :
    List (Option String × Option String × Option String) :=
  (allWorkloads c ns).map
    (fun w => (some ns, some w.deployment_name, some (w.wtype.getD "Deployment")))

/-- Signature stream of a whole run, namespace by namespace in list order. -/
def runSigs (c : Cluster) : List String → List (Option String × Option String × Option String)
  | [] => []
  | ns :: rest => nsSigs c ns ++ runSigs c rest

/-- A row `DictWriter` accepts: every key is in `fieldnames`. -/
def rowOK (r : Row) : Bool :=
  r.all (fun kv => fieldnames.contains kv.1)

/-- An update list whose keys are all CSV field names. -/
def kvsOK (kvs : List (String × String)) : Bool :=
  kvs.all (fun kv => fieldnames.contains kv.1)

/-- All rows of an inventory are `DictWriter`-compatible. -/
def invOK (inv : List Row) : Prop :=
  ∀ r ∈ inv, rowOK r = true

/-! ### Concrete data for the stated properties -/

/-- Lexicographic order on character lists (the order Python string
comparison uses), stated executably. -/
def charListLt : List Char → List Char → Bool
  | [], [] => false
  | [], _ :: _ => true
  | _ :: _, [] => false
  | a :: as, b :: bs => if a < b then true else if b < a then false else charListLt as bs

/-- Python string comparison `a < b`. -/
def strLt (a b : String) : Bool :=
  charListLt a.data b.data

/-- A cluster where every query succeeds with an empty result. -/
def baseCluster : Cluster :=
  { namespacesQ := some []
    deploymentsQ := fun _ => some []
    dcsQ := fun _ => some []
    statefulsetsQ := fun _ => some []
    podsQ := fun _ => some []
    metricsQ := fun _ => none
    servicesQ := fun _ => some []
    routesQ := fun _ => some []
    hpasQ := fun _ => some []
    quotasQ := fun _ => some []
    pvcsQ := fun _ => some []
    secretsQ := fun _ => some []
    configmapsQ := fun _ => some []
    nsinfoQ := fun _ => some none
    pvsQ := some [] }

/-- One namespace with zero workloads and one standalone (non-excluded)
secret: the scenario of the standalone-row-fallback claim. -/
def c1sec : Cluster :=
  { baseCluster with
      namespacesQ := some ["apps"]
      secretsQ := fun _ => some [{ name := "app-creds", stype := "Opaque" }] }

/-- One namespace with zero workloads and one resource quota. -/
def c1quota : Cluster :=
  { baseCluster with
      namespacesQ := some ["apps"]
      quotasQ := fun _ => some [{ name := "q1", hard := "cpu=2" }] }

/-- A malformed raw pod: empty `spec.containers`, so
`pod['spec']['containers'][0]` raises IndexError. -/
def c2bad : RawPod :=
  { name := "broken-pod", nodeName := none, containers := [] }

/-- A well-formed raw pod. -/
def c2good : RawPod :=
  { name := "api-1", nodeName := some "n1"
    containers := [{ resources := none, readinessProbe := none
                     livenessProbe := none, image := some "app:1.0" }] }

/-- The normalization of `c2good`. -/
def c2goodInfo : PodInfo :=
  { node_name := "n1", resources := "{}", readiness_probe := "{}"
    liveness_probe := "{}", image := "app:1.0", pod_name := "api-1" }

/-- One namespace, one Deployment, no sibling resources at all. -/
def c3c : Cluster :=
  { baseCluster with
      namespacesQ := some ["payments"]
      deploymentsQ := fun _ => some [{ name := "api", replicas := 2, labels := none }] }

/-- The single row `generate_inventory c3c` produces. -/
def c3row : Row :=
  [("namespace", "payments"), ("deployment_name", "api"),
   ("deployment_type", "Deployment"), ("deployment_replicas", "2"),
   ("deployment_labels", "{}"), ("node_names", ""), ("pod_images", ""),
   ("pod_resources", ""), ("pod_cpu_usages", ""), ("pod_memory_usages", ""),
   ("services", ""), ("service_ports", ""), ("routes", ""),
   ("route_hosts", ""), ("hpas", "")]

/-- Two namespaces returned by the cluster in reverse-alphabetical order,
each with one Deployment. -/
def c4c : Cluster :=
  { baseCluster with
      namespacesQ := some ["bns", "ans"]
      deploymentsQ := fun ns =>
        if ns = "bns" then some [{ name := "wb", replicas := 1, labels := none }]
        else some [{ name := "wa", replicas := 1, labels := none }] }

/-- A trailing workload row for the attach-overwrite scenario. -/
def c9base : Row :=
  [("namespace", "apps")]

def c9q1 : QuotaInfo := { name := "q1", limits := "cpu=2" }

def c9q2 : QuotaInfo := { name := "q2", limits := "cpu=4" }

def c9pvc : PVCInfo :=
  { name := "data-claim", volume_name := "pv-7", access_modes := "RWO"
    capacity := "5Gi" }

def c9secret : SecretInfo := { name := "app-creds", stype := "Opaque" }

def c9cm : ConfigmapInfo := { name := "app-config" }

def c9pv : PVInfo :=
  { name := "pv-7", nspace := some "apps", capacity := "5Gi"
    access_modes := "RWO", reclaim_policy := "Retain" }

/-- A pod whose name contains both "payments" and "payments-api". -/
def c7pod : PodInfo :=
  { node_name := "n1", resources := "{}", readiness_probe := "{}"
    liveness_probe := "{}", image := "app:1.0", pod_name := "payments-api-1" }

/-- A pod used to observe the per-pod metric fields. -/
def c10pod : PodInfo :=
  { node_name := "n1", resources := "{}", readiness_probe := "{}"
    liveness_probe := "{}", image := "app:1.0", pod_name := "api-1" }

/-- A `kubectl top pod` output with one good line and one two-token line. -/
def c10out : String :=
  "api-1 5m 20Mi\nbroken 7m"

/-! ### Dict lemmas -/

theorem dictGet?_dictSet {α : Type} (d : List (String × α)) (k' k : String) (v : α) :
    dictGet? (dictSet d k' v) k = if k' = k then some v else dictGet? d k := by
  induction d with
  | nil => simp [dictSet, dictGet?]
  | cons kv rest ih =>
      obtain ⟨a, b⟩ := kv
      by_cases h1 : a = k'
      · subst h1
        by_cases h2 : a = k
        · subst h2
          simp [dictSet, dictGet?]
        · simp [dictSet, dictGet?, h2]
      · by_cases h2 : a = k
        · subst h2
          have h3 : ¬ k' = a := fun h => h1 h.symm
          simp [dictSet, dictGet?, h1, h3]
        · simp [dictSet, dictGet?, h1, h2, ih]

theorem dictGet?_rowUpdate (r : Row) (kvs : List (String × String)) (k : String) :
    dictGet? (rowUpdate r kvs) k =
      match lastVal kvs k with
      | some v => some v
      | none => dictGet? r k := by
  induction kvs generalizing r with
  | nil => simp [rowUpdate, lastVal]
  | cons kv kvs ih =>
      show dictGet? (rowUpdate (dictSet r kv.1 kv.2) kvs) k = _
      rw [ih]
      cases h : lastVal kvs k with
      | some v => simp [lastVal, h]
      | none =>
          simp only [lastVal, h, dictGet?_dictSet]
          by_cases hk : kv.1 = k <;> simp [hk]

/-! ### Lemmas about `inventory[-1].update` and the sibling folds -/

theorem updateLast_concat (rs : List Row) (r : Row) (kvs : List (String × String)) :
    updateLast (rs ++ [r]) kvs = some (rs ++ [rowUpdate r kvs]) := by
  induction rs with
  | nil => rfl
  | cons s rs ih =>
      cases rs with
      | nil => simp [updateLast, rowUpdate]
      | cons t rs => simpa [updateLast] using congrArg (Option.map (s :: ·)) ih

theorem updateLast_nil (kvs : List (String × String)) :
    updateLast [] kvs = none := rfl

/-- A sequence of `inventory[-1].update` calls over a nonempty inventory:
everything but the last row is untouched, and the last row accumulates all
the updates in order. -/
theorem foldUpdate_concat {α : Type} (kvf : α → List (String × String)) :
    ∀ (xs : List α) (rs : List Row) (r : Row),
      xs.foldlM (fun i x => updateLast i (kvf x)) (rs ++ [r]) =
        some (rs ++ [xs.foldl (fun row x => rowUpdate row (kvf x)) r])
  | [], rs, r => rfl
  | x :: xs, rs, r => by
      rw [List.foldlM_cons, updateLast_concat]
      show (xs.foldlM (fun i y => updateLast i (kvf y)) (rs ++ [rowUpdate r (kvf x)])) = _
      rw [foldUpdate_concat kvf xs rs (rowUpdate r (kvf x)), List.foldl_cons]

/-- The same sequence of updates on an empty inventory dies on the first
element (`inventory[-1]` raises IndexError). -/
theorem foldUpdate_nil {α : Type} (kvf : α → List (String × String))
    (x : α) (xs : List α) :
    (x :: xs).foldlM (fun i y => updateLast i (kvf y)) ([] : List Row) = none := by
  rw [List.foldlM_cons, updateLast_nil]
  rfl

/-- Destructuring a successful monadic bind over `Option`. -/
theorem bind_eq_some' {α β : Type} {x : Option α} {f : α → Option β} {b : β}
    (h : x >>= f = some b) : ∃ a, x = some a ∧ f a = some b := by
  cases x with
  | none => exact absurd h (by simp)
  | some a => exact ⟨a, rfl, h⟩

/-! ### Congruence lemmas for the run -/

theorem foldlM_option_congr {α β : Type} (f g : β → α → Option β)
    (h : ∀ b a, f b a = g b a) :
    ∀ (l : List α) (init : β), l.foldlM f init = l.foldlM g init
  | [], _ => rfl
  | a :: l, init => by
      rw [List.foldlM_cons, List.foldlM_cons, h init a]
      cases g init a with
      | none => rfl
      | some b => simpa using foldlM_option_congr f g h l b

/-- The namespace loop body only looks at the cluster through the getters:
two clusters whose normalized per-kind results agree at `ns` process `ns`
identically. -/
theorem processNamespace_congr (c₁ c₂ : Cluster) (pv : List PVInfo)
    (inv : List Row) (ns : String)
    (hd : get_deployments_info (c₁.deploymentsQ ns) = get_deployments_info (c₂.deploymentsQ ns))
    (hdc : get_deploymentconfigs_info (c₁.dcsQ ns) = get_deploymentconfigs_info (c₂.dcsQ ns))
    (hss : get_statefulsets_info (c₁.statefulsetsQ ns) = get_statefulsets_info (c₂.statefulsetsQ ns))
    (hp : get_pod_info (c₁.podsQ ns) = get_pod_info (c₂.podsQ ns))
    (hm : get_pod_metrics (c₁.metricsQ ns) = get_pod_metrics (c₂.metricsQ ns))
    (hsv : get_services_info (c₁.servicesQ ns) = get_services_info (c₂.servicesQ ns))
    (hr : get_routes_info (c₁.routesQ ns) = get_routes_info (c₂.routesQ ns))
    (hh : get_hpa_info (c₁.hpasQ ns) = get_hpa_info (c₂.hpasQ ns))
    (hq : get_resource_quotas (c₁.quotasQ ns) = get_resource_quotas (c₂.quotasQ ns))
    (hpvc : get_persistent_volume_claims (c₁.pvcsQ ns) = get_persistent_volume_claims (c₂.pvcsQ ns))
    (hsec : get_secrets (c₁.secretsQ ns) = get_secrets (c₂.secretsQ ns))
    (hcm : get_configmaps (c₁.configmapsQ ns) = get_configmaps (c₂.configmapsQ ns))
    (hnsi : get_node_selector (c₁.nsinfoQ ns) = get_node_selector (c₂.nsinfoQ ns)) :
    processNamespace c₁ pv inv ns = processNamespace c₂ pv inv ns := by
  unfold processNamespace allWorkloads
  rw [hd, hdc, hss, hp, hm, hsv, hr, hh, hq, hpvc, hsec, hcm, hnsi]

theorem generate_congr (c₁ c₂ : Cluster)
    (hns : get_non_openshift_namespaces c₁.namespacesQ = get_non_openshift_namespaces c₂.namespacesQ)
    (hpv : get_persistent_volumes c₁.pvsQ = get_persistent_volumes c₂.pvsQ)
    (h : ∀ pv inv ns, processNamespace c₁ pv inv ns = processNamespace c₂ pv inv ns) :
    generate_inventory c₁ = generate_inventory c₂ := by
  unfold generate_inventory
  rw [hns, hpv]
  exact foldlM_option_congr _ _ (fun inv ns => h _ inv ns) _ _

/-! ### Row signatures: the (namespace, workload-kind, workload-name) view -/

theorem rowSig_rowUpdate (r : Row) (kvs : List (String × String))
    (h : SigNeutral kvs) : rowSig (rowUpdate r kvs) = rowSig r := by
  obtain ⟨h1, h2, h3⟩ := h
  simp [rowSig, dictGet?_rowUpdate, h1, h2, h3]

theorem mapSig_updateLast (inv inv' : List Row) (kvs : List (String × String))
    (h : updateLast inv kvs = some inv') (hkvs : SigNeutral kvs) :
    inv'.map rowSig = inv.map rowSig := by
  rcases inv.eq_nil_or_concat' with rfl | ⟨rs, r, rfl⟩
  · rw [updateLast_nil] at h
    cases h
  · rw [updateLast_concat] at h
    cases h
    simp [rowSig_rowUpdate _ _ hkvs]

theorem mapSig_foldUpdate {α : Type} (kvf : α → List (String × String))
    (hk : ∀ x, SigNeutral (kvf x)) :
    ∀ (xs : List α) (inv inv' : List Row),
      xs.foldlM (fun i x => updateLast i (kvf x)) inv = some inv' →
        inv'.map rowSig = inv.map rowSig
  | [], inv, inv', h => by
      simp only [List.foldlM_nil] at h
      cases h
      rfl
  | x :: xs, inv, inv', h => by
      rw [List.foldlM_cons] at h
      obtain ⟨mid, hmid, hrest⟩ := bind_eq_some' h
      exact (mapSig_foldUpdate kvf hk xs mid inv' hrest).trans
        (mapSig_updateLast inv mid (kvf x) hmid (hk x))

theorem sigNeutral_quotaKVs (q : QuotaInfo) : SigNeutral (quotaKVs q) :=
  ⟨rfl, rfl, rfl⟩

theorem sigNeutral_pvKVs (pv : PVInfo) : SigNeutral (pvKVs pv) :=
  ⟨rfl, rfl, rfl⟩

theorem sigNeutral_pvcKVs (pvc : PVCInfo) : SigNeutral (pvcKVs pvc) :=
  ⟨rfl, rfl, rfl⟩

theorem sigNeutral_secretKVs (s : SecretInfo) : SigNeutral (secretKVs s) :=
  ⟨rfl, rfl, rfl⟩

theorem sigNeutral_configmapKVs (cm : ConfigmapInfo) : SigNeutral (configmapKVs cm) :=
  ⟨rfl, rfl, rfl⟩

theorem sigNeutral_nodeSelector (sel : String) :
    SigNeutral [("node_selector", sel)] :=
  ⟨rfl, rfl, rfl⟩

theorem mapSig_attachPVs :
    ∀ (pvs : List PVInfo) (ns : String) (inv inv' : List Row),
      attachPVs inv ns pvs = some inv' → inv'.map rowSig = inv.map rowSig
  | [], _, inv, inv', h => by
      simp only [attachPVs, List.foldlM_nil] at h
      cases h
      rfl
  | pv :: pvs, ns, inv, inv', h => by
      rw [attachPVs, List.foldlM_cons] at h
      by_cases hm : pv.nspace = some ns
      · rw [if_pos hm] at h
        obtain ⟨mid, hmid, hrest⟩ := bind_eq_some' h
        exact (mapSig_attachPVs pvs ns mid inv' hrest).trans
          (mapSig_updateLast inv mid _ hmid (sigNeutral_pvKVs pv))
      · rw [if_neg hm] at h
        exact mapSig_attachPVs pvs ns inv inv' h

theorem mapSig_attachNodeSelector (inv inv' : List Row) (sel : String)
    (h : attachNodeSelector inv sel = some inv') :
    inv'.map rowSig = inv.map rowSig := by
  rw [attachNodeSelector] at h
  by_cases hs : sel ≠ "N/A"
  · rw [if_pos hs] at h
    exact mapSig_updateLast inv inv' _ h (sigNeutral_nodeSelector sel)
  · rw [if_neg hs] at h
    cases h
    rfl

/-- The identifying columns of a freshly built workload row. -/
theorem rowSig_workloadRow (ns : String) (pods : List PodInfo) (m : Metrics)
    (svcs : List ServiceInfo) (rts : List RouteInfo) (hpas : List HPAInfo)
    (w : Workload) :
    rowSig (workloadRow ns pods m svcs rts hpas w) =
      (some ns, some w.deployment_name, some (w.wtype.getD "Deployment")) := rfl

theorem mapSig_processNamespace (c : Cluster) (pv : List PVInfo)
    (inv inv' : List Row) (ns : String)
    (h : processNamespace c pv inv ns = some inv') :
    inv'.map rowSig = inv.map rowSig ++ nsSigs c ns := by
  rw [processNamespace, Option.bind_eq_some] at h
  obtain ⟨pods, _, h⟩ := h
  rw [Option.bind_eq_some] at h
  obtain ⟨inv2, h2, h⟩ := h
  rw [Option.bind_eq_some] at h
  obtain ⟨inv3, h3, h⟩ := h
  rw [Option.bind_eq_some] at h
  obtain ⟨inv4, h4, h⟩ := h
  rw [Option.bind_eq_some] at h
  obtain ⟨inv5, h5, h⟩ := h
  rw [Option.bind_eq_some] at h
  obtain ⟨inv6, h6, h7⟩ := h
  have e2 := mapSig_foldUpdate quotaKVs sigNeutral_quotaKVs _ _ _ h2
  have e3 := mapSig_attachPVs pv ns _ _ h3
  have e4 := mapSig_foldUpdate pvcKVs sigNeutral_pvcKVs _ _ _ h4
  have e5 := mapSig_foldUpdate secretKVs sigNeutral_secretKVs _ _ _ h5
  have e6 := mapSig_foldUpdate configmapKVs sigNeutral_configmapKVs _ _ _ h6
  have e7 := mapSig_attachNodeSelector _ _ _ h7
  rw [e7, e6, e5, e4, e3, e2, List.map_append, List.map_map, nsSigs]
  rfl

theorem mapSig_foldNamespaces (c : Cluster) (pv : List PVInfo) :
    ∀ (l : List String) (inv0 inv : List Row),
      l.foldlM (processNamespace c pv) inv0 = some inv →
        inv.map rowSig = inv0.map rowSig ++ runSigs c l
  | [], inv0, inv, h => by
      simp only [List.foldlM_nil] at h
      cases h
      simp [runSigs]
  | ns :: l, inv0, inv, h => by
      rw [List.foldlM_cons] at h
      obtain ⟨mid, hmid, hrest⟩ := bind_eq_some' h
      rw [mapSig_foldNamespaces c pv l mid inv hrest,
        mapSig_processNamespace c pv inv0 mid ns hmid, runSigs, List.append_assoc]

/-! ### Key discipline: every key a row ever gets is a CSV field name -/

theorem rowOK_dictSet (d : Row) (k : String) (v : String)
    (hd : rowOK d = true) (hk : fieldnames.contains k = true) :
    rowOK (dictSet d k v) = true := by
  induction d with
  | nil =>
      show rowOK [(k, v)] = true
      rw [rowOK, List.all_cons, List.all_nil, Bool.and_true]
      exact hk
  | cons kv rest ih =>
      rw [rowOK, List.all_cons, Bool.and_eq_true] at hd
      by_cases h1 : kv.1 = k
      · rw [dictSet, if_pos h1, rowOK, List.all_cons, Bool.and_eq_true]
        exact ⟨hk, hd.2⟩
      · rw [dictSet, if_neg h1, rowOK, List.all_cons, Bool.and_eq_true]
        exact ⟨hd.1, ih hd.2⟩

theorem rowOK_rowUpdate (r : Row) (kvs : List (String × String))
    (hr : rowOK r = true) (hkvs : kvsOK kvs = true) :
    rowOK (rowUpdate r kvs) = true := by
  induction kvs generalizing r with
  | nil => exact hr
  | cons kv kvs ih =>
      rw [kvsOK, List.all_cons, Bool.and_eq_true] at hkvs
      exact ih (dictSet r kv.1 kv.2) (rowOK_dictSet r kv.1 kv.2 hr hkvs.1) hkvs.2

theorem invOK_updateLast (inv inv' : List Row) (kvs : List (String × String))
    (h : updateLast inv kvs = some inv') (hi : invOK inv) (hkvs : kvsOK kvs = true) :
    invOK inv' := by
  rcases inv.eq_nil_or_concat' with rfl | ⟨rs, r, rfl⟩
  · rw [updateLast_nil] at h
    cases h
  · rw [updateLast_concat] at h
    cases h
    intro s hs
    rcases List.mem_append.1 hs with hs | hs
    · exact hi s (List.mem_append.2 (Or.inl hs))
    · rcases List.mem_singleton.1 hs with rfl
      exact rowOK_rowUpdate r kvs (hi r (List.mem_append.2 (Or.inr (List.mem_singleton.2 rfl)))) hkvs

theorem invOK_foldUpdate {α : Type} (kvf : α → List (String × String))
    (hk : ∀ x, kvsOK (kvf x) = true) :
    ∀ (xs : List α) (inv inv' : List Row),
      xs.foldlM (fun i x => updateLast i (kvf x)) inv = some inv' →
        invOK inv → invOK inv'
  | [], inv, inv', h => by
      simp only [List.foldlM_nil] at h
      cases h
      exact id
  | x :: xs, inv, inv', h => by
      rw [List.foldlM_cons] at h
      obtain ⟨mid, hmid, hrest⟩ := bind_eq_some' h
      intro hi
      exact invOK_foldUpdate kvf hk xs mid inv' hrest
        (invOK_updateLast inv mid (kvf x) hmid hi (hk x))

theorem invOK_attachPVs :
    ∀ (pvs : List PVInfo) (ns : String) (inv inv' : List Row),
      attachPVs inv ns pvs = some inv' → invOK inv → invOK inv'
  | [], _, inv, inv', h => by
      simp only [attachPVs, List.foldlM_nil] at h
      cases h
      exact id
  | pv :: pvs, ns, inv, inv', h => by
      rw [attachPVs, List.foldlM_cons] at h
      intro hi
      by_cases hm : pv.nspace = some ns
      · rw [if_pos hm] at h
        obtain ⟨mid, hmid, hrest⟩ := bind_eq_some' h
        exact invOK_attachPVs pvs ns mid inv' hrest
          (invOK_updateLast inv mid _ hmid hi rfl)
      · rw [if_neg hm] at h
        exact invOK_attachPVs pvs ns inv inv' h hi

theorem invOK_attachNodeSelector (inv inv' : List Row) (sel : String)
    (h : attachNodeSelector inv sel = some inv') (hi : invOK inv) : invOK inv' := by
  rw [attachNodeSelector] at h
  by_cases hs : sel ≠ "N/A"
  · rw [if_pos hs] at h
    exact invOK_updateLast inv inv' _ h hi rfl
  · rw [if_neg hs] at h
    cases h
    exact hi

theorem rowOK_workloadRow (ns : String) (pods : List PodInfo) (m : Metrics)
    (svcs : List ServiceInfo) (rts : List RouteInfo) (hpas : List HPAInfo)
    (w : Workload) :
    rowOK (workloadRow ns pods m svcs rts hpas w) = true := rfl

theorem invOK_processNamespace (c : Cluster) (pv : List PVInfo)
    (inv inv' : List Row) (ns : String)
    (h : processNamespace c pv inv ns = some inv') (hi : invOK inv) :
    invOK inv' := by
  rw [processNamespace, Option.bind_eq_some] at h
  obtain ⟨pods, _, h⟩ := h
  rw [Option.bind_eq_some] at h
  obtain ⟨inv2, h2, h⟩ := h
  rw [Option.bind_eq_some] at h
  obtain ⟨inv3, h3, h⟩ := h
  rw [Option.bind_eq_some] at h
  obtain ⟨inv4, h4, h⟩ := h
  rw [Option.bind_eq_some] at h
  obtain ⟨inv5, h5, h⟩ := h
  rw [Option.bind_eq_some] at h
  obtain ⟨inv6, h6, h7⟩ := h
  have hi1 : invOK (inv ++ (allWorkloads c ns).map
      (workloadRow ns pods (get_pod_metrics (c.metricsQ ns))
        (get_services_info (c.servicesQ ns)) (get_routes_info (c.routesQ ns))
        (get_hpa_info (c.hpasQ ns)))) := by
    intro r hr
    rcases List.mem_append.1 hr with hr | hr
    · exact hi r hr
    · obtain ⟨w, _, rfl⟩ := List.mem_map.1 hr
      exact rowOK_workloadRow _ _ _ _ _ _ w
  have hi2 := invOK_foldUpdate quotaKVs (fun _ => rfl) _ _ _ h2 hi1
  have hi3 := invOK_attachPVs pv ns _ _ h3 hi2
  have hi4 := invOK_foldUpdate pvcKVs (fun _ => rfl) _ _ _ h4 hi3
  have hi5 := invOK_foldUpdate secretKVs (fun _ => rfl) _ _ _ h5 hi4
  have hi6 := invOK_foldUpdate configmapKVs (fun _ => rfl) _ _ _ h6 hi5
  exact invOK_attachNodeSelector _ _ _ h7 hi6

theorem invOK_foldNamespaces (c : Cluster) (pv : List PVInfo) :
    ∀ (l : List String) (inv0 inv : List Row),
      l.foldlM (processNamespace c pv) inv0 = some inv → invOK inv0 → invOK inv
  | [], inv0, inv, h => by
      simp only [List.foldlM_nil] at h
      cases h
      exact id
  | ns :: l, inv0, inv, h => by
      rw [List.foldlM_cons] at h
      obtain ⟨mid, hmid, hrest⟩ := bind_eq_some' h
      intro hi
      exact invOK_foldNamespaces c pv l mid inv hrest
        (invOK_processNamespace c pv inv0 mid ns hmid hi)

theorem invOK_generate (c : Cluster) (inv : List Row)
    (h : generate_inventory c = some inv) : invOK inv := by
  rw [generate_inventory] at h
  exact invOK_foldNamespaces c _ _ [] inv h (by intro r hr; cases hr)

theorem writerow_of_rowOK (r : Row) (h : rowOK r = true) :
    writerow r = some (fieldnames.map (csvCell r)) := by
  rw [writerow, if_pos]
  exact h

theorem writeCSV_of_invOK :
    ∀ (inv : List Row), invOK inv →
      writeCSV inv = some (inv.map (fun r => fieldnames.map (csvCell r)))
  | [], _ => rfl
  | r :: inv, h => by
      rw [writeCSV, writerow_of_rowOK r (h r (List.mem_cons_self r inv)),
        writeCSV_of_invOK inv (fun s hs => h s (List.mem_cons_of_mem r hs))]
      rfl

/-! ### Remaining helper lemmas -/

/-- Under the PV-namespace filter, when every volume matches, the PV loop
is a plain sequence of `inventory[-1].update` calls. -/
theorem attachPVs_all_match :
    ∀ (pvs : List PVInfo) (ns : String) (inv : List Row),
      (∀ x ∈ pvs, PVInfo.nspace x = some ns) →
      attachPVs inv ns pvs = pvs.foldlM (fun i x => updateLast i (pvKVs x)) inv
  | [], _, _, _ => rfl
  | pv :: pvs, ns, inv, h => by
      rw [attachPVs, List.foldlM_cons, List.foldlM_cons,
        if_pos (h pv (List.mem_cons_self pv pvs))]
      cases updateLast inv (pvKVs pv) with
      | none => rfl
      | some mid =>
          show attachPVs mid ns pvs = pvs.foldlM (fun i x => updateLast i (pvKVs x)) mid
          exact attachPVs_all_match pvs ns mid (fun x hx => h x (List.mem_cons_of_mem pv hx))

/-- After a left fold of updates ending in `x`, a key set by `kvf x` holds
the value `kvf x` gave it. -/
theorem dictGet?_foldl_last {α : Type} (kvf : α → List (String × String))
    (xs : List α) (x : α) (r : Row) (k v : String)
    (hv : lastVal (kvf x) k = some v) :
    dictGet? ((xs ++ [x]).foldl (fun row y => rowUpdate row (kvf y)) r) k = some v := by
  rw [List.foldl_append, List.foldl_cons, List.foldl_nil, dictGet?_rowUpdate, hv]

/-- Miss in the metrics dict makes both per-pod fields the `N/A` marker. -/
theorem cpuUsages_empty (rel : List PodInfo) :
    cpuUsages [] rel = rel.map (fun _ => "N/A") := by
  simp [cpuUsages, cpuOf, dictGet?]

theorem memUsages_empty (rel : List PodInfo) :
    memUsages [] rel = rel.map (fun _ => "N/A") := by
  simp [memUsages, memOf, dictGet?]

/-- A single line with fewer than three tokens kills the whole
metrics-building loop, whatever was already accumulated. -/
theorem buildMetrics_eq_none :
    ∀ (lines : List String) (acc : Metrics),
      (∃ line ∈ lines, (pySplit line).length < 3) → buildMetrics lines acc = none
  | [], _, h => by simp at h
  | line :: rest, acc, h => by
      obtain ⟨l, hl, hlen⟩ := h
      rcases hsp : pySplit line with _ | ⟨n, _ | ⟨c, _ | ⟨m, t⟩⟩⟩
      · rw [buildMetrics, hsp]
      · rw [buildMetrics, hsp]
      · rw [buildMetrics, hsp]
      · rw [buildMetrics, hsp]
        rcases List.mem_cons.1 hl with rfl | hl'
        · rw [hsp] at hlen
          simp only [List.length_cons] at hlen
          exact absurd hlen (by omega)
        · exact buildMetrics_eq_none rest _ ⟨l, hl', hlen⟩

/-! ## The claims -/

/-- C8: on the namespace list {openshift-monitoring, kube-system, default,
payments, hostpath-provisioner}, the eligible-namespace selection returns
exactly ["payments"]: the four exclusion rules (prefixes `openshift-` and
`kube-`, and prefix-style matches of `default` and `hostpath-provisioner`)
remove everything else. -/
theorem claim8_namespace_exclusion :
    get_non_openshift_namespaces
      (some ["openshift-monitoring", "kube-system", "default", "payments",
             "hostpath-provisioner"]) = ["payments"] := by
  decide

/-- C7: a pod is in a workload's `relevant_pods` exactly when the workload
name occurs as a substring of the pod name (Python `in`); concretely,
`payments-api` matches `payments-api-7f9c-xyz` but not `payments-worker-1`,
and the pod `payments-api-1` is associated with both a workload named
`payments` and one named `payments-api`. -/
theorem claim7_substring_matching :
    (∀ (name : String) (pods : List PodInfo) (p : PodInfo),
        p ∈ relevantPods name pods ↔ p ∈ pods ∧ pyIn name p.pod_name = true) ∧
    pyIn "payments-api" "payments-api-7f9c-xyz" = true ∧
    pyIn "payments-api" "payments-worker-1" = false ∧
    c7pod ∈ relevantPods "payments" [c7pod] ∧
    c7pod ∈ relevantPods "payments-api" [c7pod] := by
  refine ⟨?_, by decide, by decide, by decide, by decide⟩
  intro name pods p
  simp [relevantPods, List.mem_filter]

/-- C6: in a workload's row, `node_names` and `pod_images` are the comma
join of the deduplicated node-name/image sets of the matched pods, while
`pod_cpu_usages` / `pod_memory_usages` are comma joins of lists with
exactly one entry per matched pod, aligned with the pod list by `map`, and
not deduplicated. -/
theorem claim6_aggregation (ns : String) (pods : List PodInfo) (m : Metrics)
    (svcs : List ServiceInfo) (rts : List RouteInfo) (hpas : List HPAInfo)
    (w : Workload) :
    dictGet? (workloadRow ns pods m svcs rts hpas w) "node_names"
      = some (joinComma (nodeNamesOf (relevantPods w.deployment_name pods))) ∧
    dictGet? (workloadRow ns pods m svcs rts hpas w) "pod_images"
      = some (joinComma (podImagesOf (relevantPods w.deployment_name pods))) ∧
    dictGet? (workloadRow ns pods m svcs rts hpas w) "pod_cpu_usages"
      = some (joinComma (cpuUsages m (relevantPods w.deployment_name pods))) ∧
    dictGet? (workloadRow ns pods m svcs rts hpas w) "pod_memory_usages"
      = some (joinComma (memUsages m (relevantPods w.deployment_name pods))) ∧
    (nodeNamesOf (relevantPods w.deployment_name pods)).Nodup ∧
    (∀ x, x ∈ nodeNamesOf (relevantPods w.deployment_name pods) ↔
        x ∈ (relevantPods w.deployment_name pods).map PodInfo.node_name) ∧
    (podImagesOf (relevantPods w.deployment_name pods)).Nodup ∧
    (∀ x, x ∈ podImagesOf (relevantPods w.deployment_name pods) ↔
        x ∈ (relevantPods w.deployment_name pods).map PodInfo.image) ∧
    cpuUsages m (relevantPods w.deployment_name pods)
      = (relevantPods w.deployment_name pods).map (fun p => cpuOf m p.pod_name) ∧
    (cpuUsages m (relevantPods w.deployment_name pods)).length
      = (relevantPods w.deployment_name pods).length ∧
    memUsages m (relevantPods w.deployment_name pods)
      = (relevantPods w.deployment_name pods).map (fun p => memOf m p.pod_name) ∧
    (memUsages m (relevantPods w.deployment_name pods)).length
      = (relevantPods w.deployment_name pods).length := by
  refine ⟨rfl, rfl, rfl, rfl, List.nodup_dedup _, ?_, List.nodup_dedup _, ?_,
    rfl, by simp [cpuUsages], rfl, by simp [memUsages]⟩
  · intro x
    simp [nodeNamesOf, pyStrSet, List.mem_dedup]
  · intro x
    simp [podImagesOf, pyStrSet, List.mem_dedup]

/-- C2, counterexample: a malformed pod (empty container list) in a batch
of two does not merely lose its own record — `get_pod_info` dies as a
whole (`none`, the uncaught IndexError), although the sibling record alone
normalizes fine.  The claim says the sibling records of the batch are
unaffected; here they are lost with it. -/
theorem claim2_counterexample :
    get_pod_info (some [c2bad, c2good]) = none ∧
    get_pod_info (some [c2good]) = some [c2goodInfo] :=
  ⟨rfl, rfl⟩

/-- C2, amended: a single malformed record in a `(namespace, pods)` batch
aborts normalization of the whole batch: `get_pod_info` returns the
modelled exception (`none`), dropping every record of the batch — and,
having no handler upstream, the run. -/
theorem claim2_amended :
    ∀ (pods : List RawPod) (p : RawPod),
      p ∈ pods → normalizePod p = none → get_pod_info (some pods) = none
  | [], p, hmem, _ => absurd hmem (List.not_mem_nil p)
  | q :: rest, p, hmem, hbad => by
      show normalizePods (q :: rest) = none
      rcases List.mem_cons.1 hmem with rfl | hmem'
      · rw [normalizePods, hbad]
        rfl
      · have h2 : normalizePods rest = none := claim2_amended rest p hmem' hbad
        rw [normalizePods, h2]
        cases hq : normalizePod q <;> rfl

/-- C2, witness: the amended statement at a concrete batch with the
malformed pod in second position. -/
theorem claim2_witness : get_pod_info (some [c2good, c2bad]) = none :=
  claim2_amended [c2good, c2bad] c2bad (by decide) rfl

/-- C10: one bad line (fewer than three tokens) in a namespace's
pod-metrics output empties the whole metrics mapping for the namespace,
and every pod's cpu/memory field falls back to the `N/A` marker. -/
theorem claim10_metrics_line_poisoning (s : String) (rel : List PodInfo)
    (h : ∃ line ∈ pySplitlines s, (pySplit line).length < 3) :
    get_pod_metrics (some s) = [] ∧
    cpuUsages (get_pod_metrics (some s)) rel = rel.map (fun _ => "N/A") ∧
    memUsages (get_pod_metrics (some s)) rel = rel.map (fun _ => "N/A") := by
  have hm : get_pod_metrics (some s) = [] := by
    rw [get_pod_metrics, buildMetrics_eq_none (pySplitlines s) [] h]
  rw [hm]
  exact ⟨rfl, cpuUsages_empty rel, memUsages_empty rel⟩

/-- C10, witness: the theorem applied to a concrete two-line output whose
second line has only two tokens, and one pod. -/
theorem claim10_witness :
    get_pod_metrics (some c10out) = [] ∧
    cpuUsages (get_pod_metrics (some c10out)) [c10pod] = ["N/A"] ∧
    memUsages (get_pod_metrics (some c10out)) [c10pod] = ["N/A"] := by
  have h := claim10_metrics_line_poisoning c10out [c10pod] (by decide)
  exact ⟨h.1, h.2.1, h.2.2⟩

/-- C1, counterexample: a namespace with zero workloads and one standalone
non-excluded secret.  The claim says the run produces a secret row and that
processing is not an error; instead the secret attachment runs
`inventory[-1].update` on an empty inventory, and the run dies on the
IndexError (`none`) — no row of any kind is produced. -/
theorem claim1_counterexample : generate_inventory c1sec = none := by rfl

/-- C1, amended: a namespace with zero workloads never yields rows for its
standalone resources; when such a namespace is the only one and has at
least one resource quota, the first sibling attachment indexes
`inventory[-1]` on an empty inventory, and the whole run fails. -/
theorem claim1_amended (c : Cluster) (ns : String) (pods : List PodInfo)
    (q : QuotaInfo) (qs : List QuotaInfo)
    (hns : get_non_openshift_namespaces c.namespacesQ = [ns])
    (hw : allWorkloads c ns = [])
    (hp : get_pod_info (c.podsQ ns) = some pods)
    (hq : get_resource_quotas (c.quotasQ ns) = q :: qs) :
    generate_inventory c = none := by
  have hpn : processNamespace c (get_persistent_volumes c.pvsQ) [] ns = none := by
    have hA : attachQuotas ([] : List Row) (q :: qs) = none := foldUpdate_nil quotaKVs q qs
    simp only [processNamespace, hp, Option.some_bind', hw, List.map_nil,
      List.append_nil, hq, hA]
    rfl
  simp only [generate_inventory, hns, List.foldlM_cons, hpn]
  rfl

/-- C1, witness: the amended statement at a concrete cluster with one
workload-free namespace carrying one quota. -/
theorem claim1_witness : generate_inventory c1quota = none :=
  claim1_amended c1quota "apps" [] { name := "q1", limits := "cpu=2" } []
    rfl rfl rfl rfl

/-- C3, counterexample: a run with one Deployment and no sibling
resources.  Its single row carries only the 15 workload columns: the
`quota_name` key is absent rather than padded with a marker, so the JSON
document (the rows as built) omits the key; the CSV pads it with the empty
string, not a "not applicable" marker; and the key set differs from the
fixed 29-column `fieldnames` schema, which was not computed from the
observed rows. -/
theorem claim3_counterexample :
    generate_inventory c3c = some [c3row] ∧
    writeJSON [c3row] = [c3row] ∧
    dictGet? c3row "quota_name" = none ∧
    csvCell c3row "quota_name" = "" ∧
    c3row.map Prod.fst ≠ fieldnames := by
  refine ⟨rfl, rfl, rfl, rfl, by decide⟩

/-- C3, amended: every produced row is written to the CSV padded to the
hardcoded `fieldnames` column list (so the CSV is rectangular), with every
absent value rendered as the empty string; the JSON output keeps each
row's own key set, omitting absent keys instead of padding them. -/
theorem claim3_amended (c : Cluster) (inv : List Row)
    (h : generate_inventory c = some inv) :
    writeCSV inv = some (inv.map (fun r => fieldnames.map (csvCell r))) ∧
    (∀ r ∈ inv, ∀ f, dictGet? r f = none → csvCell r f = "") ∧
    writeJSON inv = inv := by
  refine ⟨writeCSV_of_invOK inv (invOK_generate c inv h), ?_, rfl⟩
  intro r _ f hf
  rw [csvCell, hf]
  rfl

/-- C3, witness: the amended statement at the one-deployment cluster. -/
theorem claim3_witness :
    writeCSV ((generate_inventory c3c).getD []) =
      some (((generate_inventory c3c).getD []).map
        (fun r => fieldnames.map (csvCell r))) :=
  (claim3_amended c3c ((generate_inventory c3c).getD []) rfl).1

/-- C4, counterexample: the cluster returns the namespaces in the order
["bns", "ans"]; the run emits the "bns" workload row before the "ans" one,
although "ans" sorts first — the final sequence is not sorted by
namespace. -/
theorem claim4_counterexample :
    (generate_inventory c4c).map (List.map rowSig) =
      some [(some "bns", some "wb", some "Deployment"),
            (some "ans", some "wa", some "Deployment")] ∧
    strLt "ans" "bns" = true :=
  ⟨rfl, rfl⟩

/-- C4, amended: the final row order is not sorted; it is the namespace
order as returned by the namespace query, each namespace contributing one
row per workload in the order Deployment list, DeploymentConfig list,
StatefulSet list, each in query-return order (deterministic only because
the queries are issued sequentially). -/
theorem claim4_amended (c : Cluster) (inv : List Row)
    (h : generate_inventory c = some inv) :
    inv.map rowSig = runSigs c (get_non_openshift_namespaces c.namespacesQ) := by
  simp only [generate_inventory] at h
  simpa using mapSig_foldNamespaces c (get_persistent_volumes c.pvsQ)
    (get_non_openshift_namespaces c.namespacesQ) [] inv h

/-- C4, witness: the amended statement at the two-namespace cluster. -/
theorem claim4_witness :
    ((generate_inventory c4c).getD []).map rowSig =
      runSigs c4c (get_non_openshift_namespaces c4c.namespacesQ) :=
  claim4_amended c4c ((generate_inventory c4c).getD []) rfl

/-- C9: when several quotas (or claims, secrets, configmaps, or bound
volumes) are attached after a namespace's workload rows, each
`inventory[-1].update` overwrites the previous one, so the trailing row
ends up with exactly the last sibling's values, for every sibling kind. -/
theorem claim9_last_sibling_wins (rs : List Row) (r : Row) (ns : String)
    (qs : List QuotaInfo) (q : QuotaInfo)
    (pvcs : List PVCInfo) (pvc : PVCInfo)
    (secrets : List SecretInfo) (s : SecretInfo)
    (cms : List ConfigmapInfo) (cm : ConfigmapInfo)
    (pvs : List PVInfo) (pv : PVInfo)
    (hpv : ∀ x ∈ pvs ++ [pv], PVInfo.nspace x = some ns) :
    (∃ qrow : Row, attachQuotas (rs ++ [r]) (qs ++ [q]) = some (rs ++ [qrow]) ∧
       dictGet? qrow "quota_name" = some q.name ∧
       dictGet? qrow "quota_limits" = some q.limits) ∧
    (∃ prow : Row, attachPVCs (rs ++ [r]) (pvcs ++ [pvc]) = some (rs ++ [prow]) ∧
       dictGet? prow "pvc_name" = some pvc.name ∧
       dictGet? prow "pvc_volume_name" = some pvc.volume_name ∧
       dictGet? prow "pvc_access_modes" = some pvc.access_modes ∧
       dictGet? prow "pvc_capacity" = some pvc.capacity) ∧
    (∃ srow : Row, attachSecrets (rs ++ [r]) (secrets ++ [s]) = some (rs ++ [srow]) ∧
       dictGet? srow "secret_name" = some s.name ∧
       dictGet? srow "secret_type" = some s.stype) ∧
    (∃ crow : Row, attachConfigmaps (rs ++ [r]) (cms ++ [cm]) = some (rs ++ [crow]) ∧
       dictGet? crow "configmap_name" = some cm.name) ∧
    (∃ vrow : Row, attachPVs (rs ++ [r]) ns (pvs ++ [pv]) = some (rs ++ [vrow]) ∧
       dictGet? vrow "pv_name" = some pv.name ∧
       dictGet? vrow "pv_capacity" = some pv.capacity ∧
       dictGet? vrow "pv_access_modes" = some pv.access_modes ∧
       dictGet? vrow "pv_reclaim_policy" = some pv.reclaim_policy) := by
  refine ⟨⟨_, foldUpdate_concat quotaKVs (qs ++ [q]) rs r,
      dictGet?_foldl_last quotaKVs qs q r _ _ rfl,
      dictGet?_foldl_last quotaKVs qs q r _ _ rfl⟩,
    ⟨_, foldUpdate_concat pvcKVs (pvcs ++ [pvc]) rs r,
      dictGet?_foldl_last pvcKVs pvcs pvc r _ _ rfl,
      dictGet?_foldl_last pvcKVs pvcs pvc r _ _ rfl,
      dictGet?_foldl_last pvcKVs pvcs pvc r _ _ rfl,
      dictGet?_foldl_last pvcKVs pvcs pvc r _ _ rfl⟩,
    ⟨_, foldUpdate_concat secretKVs (secrets ++ [s]) rs r,
      dictGet?_foldl_last secretKVs secrets s r _ _ rfl,
      dictGet?_foldl_last secretKVs secrets s r _ _ rfl⟩,
    ⟨_, foldUpdate_concat configmapKVs (cms ++ [cm]) rs r,
      dictGet?_foldl_last configmapKVs cms cm r _ _ rfl⟩, ?_⟩
  rw [attachPVs_all_match (pvs ++ [pv]) ns (rs ++ [r]) hpv]
  exact ⟨_, foldUpdate_concat pvKVs (pvs ++ [pv]) rs r,
    dictGet?_foldl_last pvKVs pvs pv r _ _ rfl,
    dictGet?_foldl_last pvKVs pvs pv r _ _ rfl,
    dictGet?_foldl_last pvKVs pvs pv r _ _ rfl,
    dictGet?_foldl_last pvKVs pvs pv r _ _ rfl⟩

/-- C9, witness: two quotas, one claim, one secret, one configmap and one
bound volume attached to a one-row inventory; the trailing row keeps the
last quota's values. -/
theorem claim9_witness :
    (∃ qrow : Row, attachQuotas [c9base] [c9q1, c9q2] = some [qrow] ∧
       dictGet? qrow "quota_name" = some "q2" ∧
       dictGet? qrow "quota_limits" = some "cpu=4") ∧
    (∃ vrow : Row, attachPVs [c9base] "apps" [c9pv] = some [vrow] ∧
       dictGet? vrow "pv_name" = some "pv-7") := by
  have h := claim9_last_sibling_wins [] c9base "apps" [c9q1] c9q2 [] c9pvc []
    c9secret [] c9cm [] c9pv (by decide)
  obtain ⟨h1, _, _, _, h5⟩ := h
  obtain ⟨vrow, hv, hv1, _⟩ := h5
  exact ⟨h1, ⟨vrow, hv, hv1⟩⟩

/-- C5: a `(namespace, kind)` query whose command fails is indistinguishable
from the same query returning an empty result set: for every kind
(workloads, pods, metrics, services, routes, autoscalers, quotas, claims,
secrets, configmaps, the namespace-info query and the cluster-scoped
volume query) the whole run produces identical output, so the failure is
absorbed at that query and every other `(namespace, kind)` pair is
unaffected.  (The script's warning is a `print`, outside the embedding.) -/
theorem claim5_transport_failure_isolated (c : Cluster) (k : QueryKind) (ns0 : String) :
    generate_inventory (failQuery c k ns0) = generate_inventory (emptyQuery c k ns0) := by
  cases k with
  | deployments =>
      refine generate_congr _ _ rfl rfl ?_
      intro pv inv ns
      apply processNamespace_congr <;> try rfl
      show get_deployments_info (if ns = ns0 then none else c.deploymentsQ ns) =
        get_deployments_info (if ns = ns0 then some [] else c.deploymentsQ ns)
      rcases eq_or_ne ns ns0 with h | h
      · simp only [if_pos h]
        rfl
      · simp only [if_neg h]
  | dcs =>
      refine generate_congr _ _ rfl rfl ?_
      intro pv inv ns
      apply processNamespace_congr <;> try rfl
      show get_deploymentconfigs_info (if ns = ns0 then none else c.dcsQ ns) =
        get_deploymentconfigs_info (if ns = ns0 then some [] else c.dcsQ ns)
      rcases eq_or_ne ns ns0 with h | h
      · simp only [if_pos h]
        rfl
      · simp only [if_neg h]
  | statefulsets =>
      refine generate_congr _ _ rfl rfl ?_
      intro pv inv ns
      apply processNamespace_congr <;> try rfl
      show get_statefulsets_info (if ns = ns0 then none else c.statefulsetsQ ns) =
        get_statefulsets_info (if ns = ns0 then some [] else c.statefulsetsQ ns)
      rcases eq_or_ne ns ns0 with h | h
      · simp only [if_pos h]
        rfl
      · simp only [if_neg h]
  | pods =>
      refine generate_congr _ _ rfl rfl ?_
      intro pv inv ns
      apply processNamespace_congr <;> try rfl
      show get_pod_info (if ns = ns0 then none else c.podsQ ns) =
        get_pod_info (if ns = ns0 then some [] else c.podsQ ns)
      rcases eq_or_ne ns ns0 with h | h
      · simp only [if_pos h]
        rfl
      · simp only [if_neg h]
  | metrics =>
      refine generate_congr _ _ rfl rfl ?_
      intro pv inv ns
      apply processNamespace_congr <;> try rfl
      show get_pod_metrics (if ns = ns0 then none else c.metricsQ ns) =
        get_pod_metrics (if ns = ns0 then some "" else c.metricsQ ns)
      rcases eq_or_ne ns ns0 with h | h
      · simp only [if_pos h]
        rfl
      · simp only [if_neg h]
  | services =>
      refine generate_congr _ _ rfl rfl ?_
      intro pv inv ns
      apply processNamespace_congr <;> try rfl
      show get_services_info (if ns = ns0 then none else c.servicesQ ns) =
        get_services_info (if ns = ns0 then some [] else c.servicesQ ns)
      rcases eq_or_ne ns ns0 with h | h
      · simp only [if_pos h]
        rfl
      · simp only [if_neg h]
  | routes =>
      refine generate_congr _ _ rfl rfl ?_
      intro pv inv ns
      apply processNamespace_congr <;> try rfl
      show get_routes_info (if ns = ns0 then none else c.routesQ ns) =
        get_routes_info (if ns = ns0 then some [] else c.routesQ ns)
      rcases eq_or_ne ns ns0 with h | h
      · simp only [if_pos h]
        rfl
      · simp only [if_neg h]
  | hpas =>
      refine generate_congr _ _ rfl rfl ?_
      intro pv inv ns
      apply processNamespace_congr <;> try rfl
      show get_hpa_info (if ns = ns0 then none else c.hpasQ ns) =
        get_hpa_info (if ns = ns0 then some [] else c.hpasQ ns)
      rcases eq_or_ne ns ns0 with h | h
      · simp only [if_pos h]
        rfl
      · simp only [if_neg h]
  | quotas =>
      refine generate_congr _ _ rfl rfl ?_
      intro pv inv ns
      apply processNamespace_congr <;> try rfl
      show get_resource_quotas (if ns = ns0 then none else c.quotasQ ns) =
        get_resource_quotas (if ns = ns0 then some [] else c.quotasQ ns)
      rcases eq_or_ne ns ns0 with h | h
      · simp only [if_pos h]
        rfl
      · simp only [if_neg h]
  | pvcs =>
      refine generate_congr _ _ rfl rfl ?_
      intro pv inv ns
      apply processNamespace_congr <;> try rfl
      show get_persistent_volume_claims (if ns = ns0 then none else c.pvcsQ ns) =
        get_persistent_volume_claims (if ns = ns0 then some [] else c.pvcsQ ns)
      rcases eq_or_ne ns ns0 with h | h
      · simp only [if_pos h]
        rfl
      · simp only [if_neg h]
  | secrets =>
      refine generate_congr _ _ rfl rfl ?_
      intro pv inv ns
      apply processNamespace_congr <;> try rfl
      show get_secrets (if ns = ns0 then none else c.secretsQ ns) =
        get_secrets (if ns = ns0 then some [] else c.secretsQ ns)
      rcases eq_or_ne ns ns0 with h | h
      · simp only [if_pos h]
        rfl
      · simp only [if_neg h]
  | configmaps =>
      refine generate_congr _ _ rfl rfl ?_
      intro pv inv ns
      apply processNamespace_congr <;> try rfl
      show get_configmaps (if ns = ns0 then none else c.configmapsQ ns) =
        get_configmaps (if ns = ns0 then some [] else c.configmapsQ ns)
      rcases eq_or_ne ns ns0 with h | h
      · simp only [if_pos h]
        rfl
      · simp only [if_neg h]
  | nsinfo =>
      refine generate_congr _ _ rfl rfl ?_
      intro pv inv ns
      apply processNamespace_congr <;> try rfl
      show get_node_selector (if ns = ns0 then none else c.nsinfoQ ns) =
        get_node_selector (if ns = ns0 then some none else c.nsinfoQ ns)
      rcases eq_or_ne ns ns0 with h | h
      · simp only [if_pos h]
        rfl
      · simp only [if_neg h]
  | pvs =>
      refine generate_congr _ _ rfl rfl ?_
      intro pv inv ns
      apply processNamespace_congr <;> rfl

end InventoryOCP
